import Mathlib

/-!
Verification of the MarginOptimizer browser-side presentation layer.

The JavaScript sources (src/web/static/js/main.js, analyze.js, renewal.js and
the renewal-analysis script) are shallowly embedded: pure formatting helpers
become Lean functions on `ℚ` and `String`, the fetch lifecycle of each
analysis controller becomes a state-transition function parameterised by the
outcome of the (single) network call, and DOM rendering becomes the
construction of view-card records.  JavaScript numbers are modelled as `ℚ`
(every comparison appearing in the sources is exact at the values involved),
optional / possibly-absent fields as `Option`, and JavaScript truthiness of
numbers and strings explicitly (`0` and `""` are falsy).
-/

set_option maxRecDepth 10000

namespace MarginOptimizer

/-! ## JavaScript semantic helpers -/

/-- JS `x || 0` on a possibly-absent numeric field (`0` and absent are falsy). -/
def orZero : Option ℚ → ℚ
  | none => 0
  | some v => v

/-- JS `s || d` on a possibly-absent string field (`""` and absent are falsy). -/
def jsOrString (s : Option String) (d : String) : String :=
  match s with
  | none => d
  | some v => if v = "" then d else v

/-- JS truthiness of a possibly-absent string (`""` and absent are falsy). -/
def jsTruthyStr : Option String → Bool
  | none => false
  | some v => v ≠ ""

/-- The string value of a possibly-absent string field (absent reads as `""`). -/
def strVal : Option String → String
  | none => ""
  | some v => v

/-- JS truthiness of a possibly-absent number (`0` and absent are falsy). -/
def jsTruthyNum : Option ℚ → Bool
  | none => false
  | some v => v ≠ 0

/-- Numeric value of a JS boolean under arithmetic coercion (`true` is 1, `false` is 0). -/
def jsBoolVal (b : Bool) : ℚ :=
  if b then 1 else 0

/-- Whitespace characters removed by JS `String.prototype.trim`. -/
def isJsWhitespace (c : Char) : Bool :=
  c = ' ' ∨ c = '\t' ∨ c = '\n' ∨ c = '\r' ∨ c = '\x0b' ∨ c = '\x0c'

/-- JS `String.prototype.trim`: strip leading and trailing whitespace. -/
def jsTrim (s : String) : String :=
  ⟨((s.data.dropWhile isJsWhitespace).reverse.dropWhile isJsWhitespace).reverse⟩

/-- JS `x.toFixed(1)` read back as a number: round `10 * q` half away from
zero (all distances in the sources are nonnegative, where this is floor of
`10 * q + 1/2`), then divide by 10. -/
def jsToFixed1 (q : ℚ) : ℚ :=
  (⌊10 * q + 1 / 2⌋ : ℚ) / 10

/-! ## Formatter (`Utils` in src/web/static/js/main.js) -/

/-- `Utils.getGMStatusClass` (main.js lines 32-36). -/
def getGMStatusClass (gm : ℚ) : String :=
  if gm ≥ 50 then "bg-success"
  else if gm ≥ 40 then "bg-warning"
  else "bg-danger"

/-- `Utils.getGMStatusText` (main.js lines 41-45). -/
def getGMStatusText (gm : ℚ) : String :=
  if gm ≥ 50 then "Excellent"
  else if gm ≥ 40 then "Acceptable"
  else "Needs Action"

/-- `Utils.getGMCardClass` (main.js lines 50-54). -/
def getGMCardClass (gm : ℚ) : String :=
  if gm ≥ 50 then "gm-success"
  else if gm ≥ 40 then "gm-warning"
  else "gm-danger"

/-- The character-level map of `Utils.escapeHtml` (main.js lines 102-112):
`&` becomes `&amp;`, `<` becomes `&lt;`, `>` becomes `&gt;`, `"` becomes
`&quot;`, `'` becomes `&#039;`, and every other character is kept. -/
def escChars (c : Char) : List Char :=
  if c = '&' then ['&', 'a', 'm', 'p', ';']
  else if c = '<' then ['&', 'l', 't', ';']
  else if c = '>' then ['&', 'g', 't', ';']
  else if c = '"' then ['&', 'q', 'u', 'o', 't', ';']
  else if c = '\'' then ['&', '#', '0', '3', '9', ';']
  else [c]

/-- `Utils.escapeHtml` on a string input (the `null`/`undefined` guard of the
source returns `""` and is outside the string-typed embedding): single-pass
replacement of each of `& < > " '` by its entity form. -/
def escapeHtml (s : String) : String :=
  ⟨s.data.flatMap escChars⟩

/-- One row of the autocomplete suggestion list built by
`fetchVendorSuggestions` (main.js vendor tab, lines 211-218): the vendor name
is interpolated into the anchor markup exactly as received. -/
def vendorSuggestionRow (vendor : String) : String :=
  "<a href=\"#\" class=\"list-group-item list-group-item-action vendor-suggestion\" data-vendor=\""
    ++ vendor ++ "\">" ++ vendor ++ "</a>"

/-- The full suggestion-list markup built by `fetchVendorSuggestions`
(`html += ...` over the vendor list). -/
def fetchVendorSuggestionsHtml (vendors : List String) : String :=
  vendors.foldl (fun html vendor => html ++ vendorSuggestionRow vendor) ""

/-- The tails that may legitimately follow a `&` in escaped output: the five
entity forms produced by `escapeHtml` minus their leading `&`. -/
def entityTails : List (List Char) :=
  [['a', 'm', 'p', ';'], ['l', 't', ';'], ['g', 't', ';'],
   ['q', 'u', 'o', 't', ';'], ['#', '0', '3', '9', ';']]

/-- Checks that a character list contains no literal `< > " '` and that every
`&` in it is immediately followed by one of the five entity tails: the "no
literal occurrence of the escaped characters other than as entity forms"
property. -/
def wellEscaped : List Char → Bool
  | [] => true
  | c :: rest =>
    if c = '<' ∨ c = '>' ∨ c = '"' ∨ c = '\'' then false
    else if c = '&' then
      (entityTails.any fun t => rest.take t.length == t) && wellEscaped rest
    else wellEscaped rest

/-! ## C1: margin classification -/

/-- C1: for every margin `m`, `getGMStatusText` returns "Excellent" iff
`m ≥ 50`, "Acceptable" iff `40 ≤ m < 50`, "Needs Action" iff `m < 40`; the
boundaries 40 and 50 classify as "Acceptable" and "Excellent"; and
`getGMStatusClass` picks the colour token of the same tier at the same
boundaries. -/
theorem gmText_excellent (m : ℚ) (h : 50 ≤ m) : getGMStatusText m = "Excellent" := by
  unfold getGMStatusText; rw [if_pos h]

theorem gmText_acceptable (m : ℚ) (h1 : 40 ≤ m) (h2 : m < 50) :
    getGMStatusText m = "Acceptable" := by
  unfold getGMStatusText; rw [if_neg (not_le.mpr h2), if_pos h1]

theorem gmText_needsAction (m : ℚ) (h : m < 40) : getGMStatusText m = "Needs Action" := by
  unfold getGMStatusText
  rw [if_neg (not_le.mpr (h.trans (by norm_num))), if_neg (not_le.mpr h)]

theorem gmClass_success (m : ℚ) (h : 50 ≤ m) : getGMStatusClass m = "bg-success" := by
  unfold getGMStatusClass; rw [if_pos h]

theorem gmClass_warning (m : ℚ) (h1 : 40 ≤ m) (h2 : m < 50) :
    getGMStatusClass m = "bg-warning" := by
  unfold getGMStatusClass; rw [if_neg (not_le.mpr h2), if_pos h1]

theorem gmClass_danger (m : ℚ) (h : m < 40) : getGMStatusClass m = "bg-danger" := by
  unfold getGMStatusClass
  rw [if_neg (not_le.mpr (h.trans (by norm_num))), if_neg (not_le.mpr h)]

/-- C1: for every margin `m`, `getGMStatusText` returns "Excellent" iff
`m ≥ 50`, "Acceptable" iff `40 ≤ m < 50`, "Needs Action" iff `m < 40`; the
boundaries 40 and 50 classify as "Acceptable" and "Excellent"; and
`getGMStatusClass` picks the colour token of the same tier at the same
boundaries. -/
theorem claim1_margin_classification :
    (∀ m : ℚ, (getGMStatusText m = "Excellent" ↔ 50 ≤ m)
      ∧ (getGMStatusText m = "Acceptable" ↔ 40 ≤ m ∧ m < 50)
      ∧ (getGMStatusText m = "Needs Action" ↔ m < 40))
    ∧ getGMStatusText 40 = "Acceptable"
    ∧ getGMStatusText 50 = "Excellent"
    ∧ (∀ m : ℚ, (getGMStatusClass m = "bg-success" ↔ getGMStatusText m = "Excellent")
      ∧ (getGMStatusClass m = "bg-warning" ↔ getGMStatusText m = "Acceptable")
      ∧ (getGMStatusClass m = "bg-danger" ↔ getGMStatusText m = "Needs Action")) := by
  refine ⟨?_, gmText_acceptable 40 le_rfl (by norm_num), gmText_excellent 50 le_rfl, ?_⟩
  · intro m
    refine ⟨⟨?_, gmText_excellent m⟩, ⟨?_, fun h => gmText_acceptable m h.1 h.2⟩,
      ⟨?_, gmText_needsAction m⟩⟩
    · intro h
      by_contra hc
      rcases le_or_lt 40 m with h40 | h40
      · rw [gmText_acceptable m h40 (lt_of_not_le hc)] at h
        exact absurd h (by decide)
      · rw [gmText_needsAction m h40] at h
        exact absurd h (by decide)
    · intro h
      by_cases h50 : (50 : ℚ) ≤ m
      · rw [gmText_excellent m h50] at h
        exact absurd h (by decide)
      · rcases le_or_lt 40 m with h40 | h40
        · exact ⟨h40, lt_of_not_le h50⟩
        · rw [gmText_needsAction m h40] at h
          exact absurd h (by decide)
    · intro h
      by_cases h50 : (50 : ℚ) ≤ m
      · rw [gmText_excellent m h50] at h
        exact absurd h (by decide)
      · rcases le_or_lt 40 m with h40 | h40
        · rw [gmText_acceptable m h40 (lt_of_not_le h50)] at h
          exact absurd h (by decide)
        · exact h40
  · intro m
    by_cases h50 : (50 : ℚ) ≤ m
    · rw [gmClass_success m h50, gmText_excellent m h50]
      exact ⟨iff_of_true rfl rfl, iff_of_false (by decide) (by decide),
        iff_of_false (by decide) (by decide)⟩
    · rcases le_or_lt 40 m with h40 | h40
      · rw [gmClass_warning m h40 (lt_of_not_le h50), gmText_acceptable m h40 (lt_of_not_le h50)]
        exact ⟨iff_of_false (by decide) (by decide), iff_of_true rfl rfl,
          iff_of_false (by decide) (by decide)⟩
      · rw [gmClass_danger m h40, gmText_needsAction m h40]
        exact ⟨iff_of_false (by decide) (by decide), iff_of_false (by decide) (by decide),
          iff_of_true rfl rfl⟩

theorem wellEscaped_cons_safe (c : Char) (l : List Char)
    (h1 : c ≠ '<') (h2 : c ≠ '>') (h3 : c ≠ '"') (h4 : c ≠ '\'') (h5 : c ≠ '&') :
    wellEscaped (c :: l) = wellEscaped l := by
  simp only [wellEscaped]
  rw [if_neg (by simp [h1, h2, h3, h4]), if_neg h5]

theorem wellEscaped_escChars (c : Char) (l : List Char) (h : wellEscaped l = true) :
    wellEscaped (escChars c ++ l) = true := by
  by_cases hAmp : c = '&'
  · subst hAmp
    show wellEscaped ('&' :: 'a' :: 'm' :: 'p' :: ';' :: l) = true
    simp [wellEscaped, entityTails, h]
  · by_cases hLt : c = '<'
    · subst hLt
      show wellEscaped ('&' :: 'l' :: 't' :: ';' :: l) = true
      simp [wellEscaped, entityTails, h]
    · by_cases hGt : c = '>'
      · subst hGt
        show wellEscaped ('&' :: 'g' :: 't' :: ';' :: l) = true
        simp [wellEscaped, entityTails, h]
      · by_cases hQ : c = '"'
        · subst hQ
          show wellEscaped ('&' :: 'q' :: 'u' :: 'o' :: 't' :: ';' :: l) = true
          simp [wellEscaped, entityTails, h]
        · by_cases hAp : c = '\''
          · subst hAp
            show wellEscaped ('&' :: '#' :: '0' :: '3' :: '9' :: ';' :: l) = true
            simp [wellEscaped, entityTails, h]
          · have hrow : escChars c = [c] := by
              unfold escChars
              rw [if_neg hAmp, if_neg hLt, if_neg hGt, if_neg hQ, if_neg hAp]
            rw [hrow]
            show wellEscaped (c :: l) = true
            rw [wellEscaped_cons_safe c l hLt hGt hQ hAp hAmp, h]

theorem wellEscaped_flatMap (l : List Char) : wellEscaped (l.flatMap escChars) = true := by
  induction l with
  | nil => rfl
  | cons c rest ih =>
    rw [List.flatMap_cons]
    exact wellEscaped_escChars c _ ih

/-- C2 counterexample: the autocomplete suggestion markup built by
`fetchVendorSuggestions` interpolates the vendor name without escaping: for
the vendor name `<script>` the rendered markup contains the literal
characters `<script>` coming from the input, and contains no `&lt;` entity
at all — so it is not the case that every untrusted field is HTML-escaped
before interpolation. -/
theorem claim2_counterexample :
    ("<script>".data <:+: (fetchVendorSuggestionsHtml ["<script>"]).data)
    ∧ ¬ ("&lt;".data <:+: (fetchVendorSuggestionsHtml ["<script>"]).data) := by
  constructor
  · decide
  · decide

/-- C2 (amended): `Utils.escapeHtml` itself is correct — for every input
string its output contains no literal `< > " '` and every `&` in the output
is immediately followed by one of the five entity tails — but the
autocomplete suggestion list interpolates each vendor name into its markup
verbatim (unescaped), so untrusted text reaches the rendered suggestion
markup without escaping. -/
theorem claim2_escaping_amended :
    (∀ s : String, wellEscaped (escapeHtml s).data = true)
    ∧ (∀ v : String, v.data <:+: (fetchVendorSuggestionsHtml [v]).data) := by
  constructor
  · intro s
    exact wellEscaped_flatMap s.data
  · intro v
    have h1 : fetchVendorSuggestionsHtml [v]
        = ("" ++ ("<a href=\"#\" class=\"list-group-item list-group-item-action vendor-suggestion\" data-vendor=\""
          ++ v ++ "\">" ++ v ++ "</a>")) := rfl
    rw [h1]
    simp only [String.data_append]
    exact ⟨"".data
      ++ "<a href=\"#\" class=\"list-group-item list-group-item-action vendor-suggestion\" data-vendor=\"".data,
      ("\">" ++ v ++ "</a>").data, by simp [String.data_append]⟩

/-! ## Data model: quotes, projections, view cards

Record types carry exactly the payload fields the verified claims inspect;
possibly-absent fields are `Option`. -/

/-- The `projected_with_negotiation` sub-record of a quote. -/
structure Projection where
  mrc : ℚ
  gm : ℚ
  avg_discount : ℚ
  best_discount : Option ℚ
  best_mrc : Option ℚ
  best_gm : Option ℚ
deriving Repr, DecidableEq

/-- A vendor quote as consumed by the renderers (used both for the
`vendor_quotes` and the `nearby_quotes` collections; `distance_meters` and
`is_same_vendor` are only meaningful for nearby quotes). -/
structure VendorQuote where
  vendor_name : String
  quickbase_id : Nat
  gm : Option ℚ
  distance_meters : ℚ
  is_same_vendor : Bool
  projected_with_negotiation : Option Projection
deriving Repr, DecidableEq

/-- The unit and numeric value shown on a distance badge. -/
inductive DistanceDisplay
  | meters (v : ℚ)
  | km (v : ℚ)
deriving Repr, DecidableEq

/-- The best-case projection block condition, as written (twice, verbatim) in
analyze.js `displayVendorQuotes` (line 160) and `displayNearbyQuotes`
(line 291): `proj.best_discount && proj.best_discount > proj.avg_discount`
(a numeric field is truthy iff present and nonzero). -/
def bestCaseShown (proj : Projection) : Bool :=
  match proj.best_discount with
  | none => false
  | some b => decide (b ≠ 0) && decide (proj.avg_discount < b)

/-- The rendered projection block of one quote card. -/
structure QuoteProjectionView where
  avg_discount : ℚ
  projected_mrc : ℚ
  projected_gm : ℚ
  showsBest : Bool
deriving Repr, DecidableEq

def mkQuoteProjectionView (proj : Projection) : QuoteProjectionView :=
  { avg_discount := proj.avg_discount
    projected_mrc := proj.mrc
    projected_gm := proj.gm
    showsBest := bestCaseShown proj }

/-- One card rendered by analyze.js `displayVendorQuotes` (lines 112-243).
`strategyButton` records the arguments baked into the card's
`onclick="showStrategy('${currentServiceId}', ${vq.quickbase_id})"` at render
time. -/
structure VendorQuoteCard where
  vendor_name_escaped : String
  gmCardClass : String
  gmBadgeClass : String
  gmStatusText : String
  projection : Option QuoteProjectionView
  strategyButton : String × Nat
deriving Repr, DecidableEq

def mkVendorQuoteCard (currentSid : String) (vq : VendorQuote) : VendorQuoteCard :=
  { vendor_name_escaped := escapeHtml vq.vendor_name
    gmCardClass := getGMCardClass (orZero vq.gm)
    gmBadgeClass := getGMStatusClass (orZero vq.gm)
    gmStatusText := getGMStatusText (orZero vq.gm)
    projection := vq.projected_with_negotiation.map mkQuoteProjectionView
    strategyButton := (currentSid, vq.quickbase_id) }

/-- analyze.js `displayVendorQuotes`: one card per quote, in received order. -/
def displayVendorQuotesCards (currentSid : String) (vendorQuotes : List VendorQuote) :
    List VendorQuoteCard :=
  vendorQuotes.map (mkVendorQuoteCard currentSid)

/-- One card rendered by analyze.js `displayNearbyQuotes` (lines 248-366):
like a vendor-quote card plus a distance badge, which is always
`${distanceMeters}m away` (the `vq.distance_meters || 0` guard of line 272 is
the identity on the present numeric distance modelled here). -/
structure NearbyQuoteCard where
  vendor_name_escaped : String
  gmCardClass : String
  gmBadgeClass : String
  gmStatusText : String
  distanceBadge : DistanceDisplay
  projection : Option QuoteProjectionView
  strategyButton : String × Nat
deriving Repr, DecidableEq

def mkNearbyQuoteCard (currentSid : String) (vq : VendorQuote) : NearbyQuoteCard :=
  { vendor_name_escaped := escapeHtml vq.vendor_name
    gmCardClass := getGMCardClass (orZero vq.gm)
    gmBadgeClass := getGMStatusClass (orZero vq.gm)
    gmStatusText := getGMStatusText (orZero vq.gm)
    distanceBadge := DistanceDisplay.meters vq.distance_meters
    projection := vq.projected_with_negotiation.map mkQuoteProjectionView
    strategyButton := (currentSid, vq.quickbase_id) }

/-- analyze.js `displayNearbyQuotes`: one card per quote, in received order —
the source contains no sort. -/
def displayNearbyQuotesCards (currentSid : String) (nearbyQuotes : List VendorQuote) :
    List NearbyQuoteCard :=
  nearbyQuotes.map (mkNearbyQuoteCard currentSid)

/-- The comparator of the renewal-analysis `displayNearbyQuotes` (lines
363-371 of the renewal script): same-vendor quotes first (booleans coerced to
0/1 and subtracted), then ascending distance. -/
def nearbyCompare (a b : VendorQuote) : ℚ :=
  if a.is_same_vendor ≠ b.is_same_vendor then
    jsBoolVal b.is_same_vendor - jsBoolVal a.is_same_vendor
  else
    a.distance_meters - b.distance_meters

/-- JS `Array.prototype.sort` with `nearbyCompare` — a stable sort placing
`a` no later than `b` whenever the comparator is ≤ 0. -/
def sortNearbyQuotes (l : List VendorQuote) : List VendorQuote :=
  l.mergeSort (fun a b => nearbyCompare a b ≤ 0)

/-- One card rendered by the renewal-analysis `displayNearbyQuotes` (lines
375-435): raw (unescaped) vendor name, a success/warning/danger margin badge,
and a distance badge always in kilometres to one decimal
(`((vq.distance_meters || 0) / 1000).toFixed(1)`). -/
structure RenewalNearbyCard where
  vendor_name : String
  gmBadgeClass : String
  distanceBadge : DistanceDisplay
deriving Repr, DecidableEq

def mkRenewalNearbyCard (vq : VendorQuote) : RenewalNearbyCard :=
  let gm := orZero vq.gm
  { vendor_name := vq.vendor_name
    gmBadgeClass := if gm ≥ 50 then "success" else if gm ≥ 40 then "warning" else "danger"
    distanceBadge := DistanceDisplay.km (jsToFixed1 (vq.distance_meters / 1000)) }

/-- Renewal-analysis `displayNearbyQuotes`: sort, then one card per quote. -/
def displayRenewalNearbyCards (nearbyQuotes : List VendorQuote) : List RenewalNearbyCard :=
  (sortNearbyQuotes nearbyQuotes).map mkRenewalNearbyCard

/-- Modelled from the spec (§4.3): the distance badge the specification
describes — meters when the distance is below 1000, otherwise kilometres
rounded to one decimal. Compared against the two implementations. -/
def specDistanceBadge (d : ℚ) : DistanceDisplay :=
  if d < 1000 then DistanceDisplay.meters d
  else DistanceDisplay.km (jsToFixed1 (d / 1000))

/-- Example nearby quote 1500 m away. -/
def exQuoteFar : VendorQuote :=
  { vendor_name := "VendorA", quickbase_id := 1, gm := some 45, distance_meters := 1500,
    is_same_vendor := false, projected_with_negotiation := none }

/-- Example nearby quote 500 m away. -/
def exQuoteNear : VendorQuote :=
  { vendor_name := "VendorB", quickbase_id := 2, gm := some 45, distance_meters := 500,
    is_same_vendor := false, projected_with_negotiation := none }

/-- C6 counterexample: at distance 1500 the service-analysis view shows
"1500m away" (meters, despite 1500 ≥ 1000), and at distance 500 the renewal
view shows "0.5 km away" (kilometres, despite 500 < 1000) — neither view
implements the meters-below-1000 / kilometres-otherwise rule of the claim. -/
theorem claim6_counterexample :
    (mkNearbyQuoteCard "SVC" exQuoteFar).distanceBadge = DistanceDisplay.meters 1500
    ∧ specDistanceBadge 1500 = DistanceDisplay.km (3 / 2)
    ∧ DistanceDisplay.meters 1500 ≠ DistanceDisplay.km (3 / 2)
    ∧ (mkRenewalNearbyCard exQuoteNear).distanceBadge = DistanceDisplay.km (1 / 2)
    ∧ specDistanceBadge 500 = DistanceDisplay.meters 500
    ∧ DistanceDisplay.km (1 / 2) ≠ DistanceDisplay.meters 500 := by
  refine ⟨rfl, ?_, by decide, ?_, ?_, by decide⟩
  · show (if (1500 : ℚ) < 1000 then _ else _) = _
    rw [if_neg (by norm_num)]
    norm_num [jsToFixed1]
  · show DistanceDisplay.km (jsToFixed1 ((500 : ℚ) / 1000)) = _
    norm_num [jsToFixed1]
  · show (if (500 : ℚ) < 1000 then _ else _) = _
    rw [if_pos (by norm_num)]

/-- C6 (amended): the service-analysis view's distance badge always displays
the raw distance in meters, and the renewal view's always displays kilometres
to one decimal — there is no below-1000 conditional in either; the kilometre
value shown is a multiple of 1/10 within 1/20 of the exact distance in
kilometres. -/
theorem claim6_distance_badge_amended :
    ∀ (sid : String) (vq : VendorQuote),
      (mkNearbyQuoteCard sid vq).distanceBadge = DistanceDisplay.meters vq.distance_meters
      ∧ (mkRenewalNearbyCard vq).distanceBadge
        = DistanceDisplay.km (jsToFixed1 (vq.distance_meters / 1000))
      ∧ (∃ n : ℤ, jsToFixed1 (vq.distance_meters / 1000) = n / 10)
      ∧ |jsToFixed1 (vq.distance_meters / 1000) - vq.distance_meters / 1000| ≤ 1 / 20 := by
  intro sid vq
  refine ⟨rfl, rfl, ⟨⌊10 * (vq.distance_meters / 1000) + 1 / 2⌋, rfl⟩, ?_⟩
  set x : ℚ := vq.distance_meters / 1000 with hx
  have h1 : (⌊10 * x + 1 / 2⌋ : ℚ) ≤ 10 * x + 1 / 2 := Int.floor_le _
  have h2 : 10 * x + 1 / 2 < (⌊10 * x + 1 / 2⌋ : ℚ) + 1 := Int.lt_floor_add_one _
  rw [jsToFixed1, abs_le]
  constructor <;> [linarith; linarith]

/-- The two-key order described by the specification: quotes from the same
vendor as the subject strictly first, then ascending distance. -/
def twoKeyLe (a b : VendorQuote) : Prop :=
  (a.is_same_vendor = true ∧ b.is_same_vendor = false)
  ∨ (a.is_same_vendor = b.is_same_vendor ∧ a.distance_meters ≤ b.distance_meters)

theorem nearbyCompare_le_iff (a b : VendorQuote) :
    nearbyCompare a b ≤ 0 ↔ twoKeyLe a b := by
  unfold nearbyCompare twoKeyLe jsBoolVal
  by_cases h : a.is_same_vendor = b.is_same_vendor
  · rw [if_neg (by simp [h])]
    cases ha : a.is_same_vendor <;> cases hb : b.is_same_vendor <;>
      simp_all [sub_nonpos]
  · rw [if_pos (by simp [h])]
    cases ha : a.is_same_vendor <;> cases hb : b.is_same_vendor <;> simp_all

theorem twoKeyLe_trans :
    ∀ a b c : VendorQuote, twoKeyLe a b → twoKeyLe b c → twoKeyLe a c := by
  intro a b c hab hbc
  rcases hab with ⟨ha, hb⟩ | ⟨hab, hd1⟩
  · rcases hbc with ⟨hb', _⟩ | ⟨hbc, _⟩
    · rw [hb] at hb'; exact absurd hb' (by decide)
    · exact Or.inl ⟨ha, hbc ▸ hb⟩
  · rcases hbc with ⟨hb', hc⟩ | ⟨hbc, hd2⟩
    · exact Or.inl ⟨hab.trans hb', hc⟩
    · exact Or.inr ⟨hab.trans hbc, hd1.trans hd2⟩

theorem twoKeyLe_total :
    ∀ a b : VendorQuote, twoKeyLe a b ∨ twoKeyLe b a := by
  intro a b
  unfold twoKeyLe
  cases ha : a.is_same_vendor <;> cases hb : b.is_same_vendor <;>
    rcases le_total a.distance_meters b.distance_meters with hd | hd <;> simp_all

theorem nearbyLe_trans :
    ∀ a b c : VendorQuote, (decide (nearbyCompare a b ≤ 0)) = true →
      (decide (nearbyCompare b c ≤ 0)) = true → (decide (nearbyCompare a c ≤ 0)) = true := by
  intro a b c hab hbc
  rw [decide_eq_true_eq, nearbyCompare_le_iff] at *
  exact twoKeyLe_trans a b c hab hbc

theorem nearbyLe_total :
    ∀ a b : VendorQuote,
      ((decide (nearbyCompare a b ≤ 0)) || (decide (nearbyCompare b a ≤ 0))) = true := by
  intro a b
  rw [Bool.or_eq_true, decide_eq_true_eq, decide_eq_true_eq,
    nearbyCompare_le_iff, nearbyCompare_le_iff]
  exact twoKeyLe_total a b

theorem mergeSort_pair {α : Type} {le : α → α → Bool}
    (trans : ∀ a b c, le a b = true → le b c = true → le a c = true)
    (total : ∀ a b, (le a b || le b a) = true)
    (a b : α) (h : le a b = false) :
    [a, b].mergeSort le = [b, a] := by
  obtain ⟨l₁, l₂, heq, hsplit, _⟩ := List.mergeSort_cons trans total a [b]
  rw [List.mergeSort_singleton] at hsplit
  rcases l₁ with _ | ⟨x, l₁'⟩
  · rw [List.nil_append] at hsplit heq
    subst hsplit
    have hp := List.sorted_mergeSort trans total [a, b]
    rw [heq, List.pairwise_cons] at hp
    have := hp.1 b (by simp)
    rw [this] at h
    exact absurd h (by simp)
  · rw [List.cons_append] at hsplit
    have hx : x = b ∧ l₁' ++ l₂ = [] :=
      ⟨(List.cons_eq_cons.mp hsplit).1.symm, (List.cons_eq_cons.mp hsplit).2.symm⟩
    obtain ⟨he1, he2⟩ := List.append_eq_nil.mp hx.2
    rw [heq, hx.1, he1, he2, List.cons_append, List.nil_append]

/-- Example nearby quote from the subject's current vendor, 500 m away. -/
def exQuoteSameVendor : VendorQuote :=
  { vendor_name := "CurrentVendor", quickbase_id := 3, gm := some 45, distance_meters := 500,
    is_same_vendor := true, projected_with_negotiation := none }

/-- Example nearby quote from another vendor, 100 m away. -/
def exQuoteOtherVendor : VendorQuote :=
  { vendor_name := "OtherVendor", quickbase_id := 4, gm := some 45, distance_meters := 100,
    is_same_vendor := false, projected_with_negotiation := none }

/-- C5 counterexample: the service-analysis Nearby-Quotes view
(analyze.js `displayNearbyQuotes`) renders entries in received order without
any sort: receiving [B, A] with A(sameVendor, 500 m) and B(other vendor,
100 m) it renders B first, not the claimed [A, B]. -/
theorem claim5_counterexample :
    displayNearbyQuotesCards "SVC" [exQuoteOtherVendor, exQuoteSameVendor]
      = [mkNearbyQuoteCard "SVC" exQuoteOtherVendor, mkNearbyQuoteCard "SVC" exQuoteSameVendor]
    ∧ mkNearbyQuoteCard "SVC" exQuoteOtherVendor ≠ mkNearbyQuoteCard "SVC" exQuoteSameVendor := by
  exact ⟨rfl, by decide⟩

/-- C5 (amended): the renewal-analysis Nearby-Quotes view does sort by the
stable two-key order — its output is a permutation of the input, pairwise in
the two-key order (same-vendor first, then ascending distance), stable
(any comparator-sorted sublist keeps its relative order), and on the concrete
A(sameVendor, 500)/B(other, 100) example it renders [A, B] from either input
order — while the service-analysis Nearby-Quotes view renders entries in
received order, unsorted. -/
theorem claim5_sorting_amended :
    (∀ l : List VendorQuote,
      (sortNearbyQuotes l).Perm l ∧ List.Pairwise twoKeyLe (sortNearbyQuotes l))
    ∧ (∀ (l c : List VendorQuote),
        List.Pairwise (fun a b => nearbyCompare a b ≤ 0) c → c.Sublist l →
          c.Sublist (sortNearbyQuotes l))
    ∧ displayRenewalNearbyCards [exQuoteSameVendor, exQuoteOtherVendor]
        = [mkRenewalNearbyCard exQuoteSameVendor, mkRenewalNearbyCard exQuoteOtherVendor]
    ∧ displayRenewalNearbyCards [exQuoteOtherVendor, exQuoteSameVendor]
        = [mkRenewalNearbyCard exQuoteSameVendor, mkRenewalNearbyCard exQuoteOtherVendor]
    ∧ (∀ (sid : String) (l : List VendorQuote),
        displayNearbyQuotesCards sid l = l.map (mkNearbyQuoteCard sid)) := by
  refine ⟨fun l => ⟨List.mergeSort_perm l _, ?_⟩, fun l c hc hs => ?_, ?_, ?_, fun sid l => rfl⟩
  · exact (List.sorted_mergeSort nearbyLe_trans nearbyLe_total l).imp
      (fun h => (nearbyCompare_le_iff _ _).mp (decide_eq_true_eq.mp h))
  · exact List.sublist_mergeSort nearbyLe_trans nearbyLe_total
      (hc.imp fun h => decide_eq_true_eq.mpr h) hs
  · unfold displayRenewalNearbyCards sortNearbyQuotes
    rw [List.mergeSort_of_sorted (by
      simp [List.pairwise_cons, nearbyCompare, exQuoteSameVendor, exQuoteOtherVendor, jsBoolVal])]
    rfl
  · unfold displayRenewalNearbyCards sortNearbyQuotes
    rw [mergeSort_pair nearbyLe_trans nearbyLe_total _ _ (by
      rw [decide_eq_false_iff_not]
      simp [nearbyCompare, exQuoteSameVendor, exQuoteOtherVendor, jsBoolVal])]
    rfl

/-- Witness for C5: the stability clause applied at a concrete sorted
sublist. -/
theorem claim5_witness :
    [exQuoteOtherVendor].Sublist (sortNearbyQuotes [exQuoteSameVendor, exQuoteOtherVendor]) :=
  claim5_sorting_amended.2.1 [exQuoteSameVendor, exQuoteOtherVendor] [exQuoteOtherVendor]
    (List.pairwise_singleton _ _)
    ((List.Sublist.refl [exQuoteOtherVendor]).cons exQuoteSameVendor)

/-! ## Vendor-history renewal table (main.js vendor tab, `displayRenewalHistory`) -/

/-- One record of the vendor renewal-history collection. -/
structure RenewalRecord where
  service_id : Option String
  renewal_date : Option String
  original_mrc : Option ℚ
  renewed_mrc : Option ℚ
  discount_percent : Option ℚ
  currency : Option String
  status : Option String
deriving Repr, DecidableEq

/-- One rendered row of `displayRenewalHistory` (main.js lines 334-346). -/
structure RenewalHistoryRow where
  discount : ℚ
  discountBadgeClass : String
  status : String
deriving Repr, DecidableEq

/-- main.js lines 335-336:
`const discount = renewal.discount_percent || 0;`
`const discountClass = discount > 15 ? 'success' : discount > 5 ? 'info' : 'secondary';` -/
def mkRenewalHistoryRow (renewal : RenewalRecord) : RenewalHistoryRow :=
  let discount := orZero renewal.discount_percent
  { discount := discount
    discountBadgeClass :=
      if discount > 15 then "success" else if discount > 5 then "info" else "secondary"
    status := jsOrString renewal.status "N/A" }

/-- main.js `displayRenewalHistory`: one row per record, in received order. -/
def displayRenewalHistoryRows (renewals : List RenewalRecord) : List RenewalHistoryRow :=
  renewals.map mkRenewalHistoryRow

/-- Example renewal record with a discount of exactly 15 %. -/
def exRenewal15 : RenewalRecord :=
  { service_id := some "SVC-9", renewal_date := some "2024-01-01", original_mrc := some 1000,
    renewed_mrc := some 850, discount_percent := some 15, currency := some "USD",
    status := some "Renewed" }

/-- C7 counterexample: a discount of exactly 15 % gets the medium tier
("info"), not the high tier ("success") — the code tests `discount > 15`,
not `discount ≥ 15`. -/
theorem claim7_counterexample :
    (mkRenewalHistoryRow exRenewal15).discountBadgeClass = "info"
    ∧ "info" ≠ ("success" : String) := by
  constructor
  · have h : (mkRenewalHistoryRow exRenewal15).discountBadgeClass
        = if (15 : ℚ) > 15 then "success" else if (15 : ℚ) > 5 then "info" else "secondary" :=
      rfl
    rw [h, if_neg (by norm_num), if_pos (by norm_num)]
  · decide

/-- C7 (amended): the row-level discount-tier colour of the vendor-history
renewal table is the high tier ("success") iff the discount strictly exceeds
15 %, the medium tier ("info") iff it strictly exceeds 5 % and is at most
15 %, and the neutral tier ("secondary") iff it is at most 5 %; exactly 15 %
gets the medium tier. -/
theorem claim7_discount_tier_amended :
    ∀ r : RenewalRecord,
      ((mkRenewalHistoryRow r).discountBadgeClass = "success" ↔ 15 < orZero r.discount_percent)
      ∧ ((mkRenewalHistoryRow r).discountBadgeClass = "info"
          ↔ 5 < orZero r.discount_percent ∧ orZero r.discount_percent ≤ 15)
      ∧ ((mkRenewalHistoryRow r).discountBadgeClass = "secondary"
          ↔ orZero r.discount_percent ≤ 5) := by
  intro r
  set d := orZero r.discount_percent with hd
  have hrow : (mkRenewalHistoryRow r).discountBadgeClass
      = if d > 15 then "success" else if d > 5 then "info" else "secondary" := rfl
  by_cases h15 : (15 : ℚ) < d
  · rw [hrow, if_pos h15]
    exact ⟨iff_of_true rfl h15,
      iff_of_false (by decide) (fun hc => absurd h15 (not_lt.mpr hc.2)),
      iff_of_false (by decide) (not_le.mpr (lt_trans (by norm_num) h15))⟩
  · by_cases h5 : (5 : ℚ) < d
    · rw [hrow, if_neg h15, if_pos h5]
      exact ⟨iff_of_false (by decide) h15, iff_of_true rfl ⟨h5, not_lt.mp h15⟩,
        iff_of_false (by decide) (not_le.mpr h5)⟩
    · rw [hrow, if_neg h15, if_neg h5]
      exact ⟨iff_of_false (by decide) h15,
        iff_of_false (by decide) (fun hc => absurd hc.1 h5),
        iff_of_true rfl (not_lt.mp h5)⟩

/-! ## C8: best-case projection block -/

/-- Example projection whose best-case discount exceeds the average. -/
def exProjection : Projection :=
  { mrc := 900, gm := 47, avg_discount := 10, best_discount := some 12,
    best_mrc := some 850, best_gm := some 50 }

/-- Example quote carrying `exProjection`. -/
def exQuoteWithProjection : VendorQuote :=
  { vendor_name := "VendorC", quickbase_id := 5, gm := some 45, distance_meters := 0,
    is_same_vendor := false, projected_with_negotiation := some exProjection }

/-- C8: for every quote carrying a projection whose best-case discount is
present, both the `displayVendorQuotes` card and the `displayNearbyQuotes`
card render its projection block, and (for the nonnegative discounts of the
data model) the best-case block is shown iff the best-case discount strictly
exceeds the average-case discount; in particular equality renders no
best-case block. -/
theorem claim8_best_case_block :
    ∀ (sid : String) (vq : VendorQuote) (proj : Projection) (b : ℚ),
      vq.projected_with_negotiation = some proj →
      proj.best_discount = some b →
      (mkVendorQuoteCard sid vq).projection = some (mkQuoteProjectionView proj)
      ∧ (mkNearbyQuoteCard sid vq).projection = some (mkQuoteProjectionView proj)
      ∧ (0 ≤ proj.avg_discount →
          ((mkQuoteProjectionView proj).showsBest = true ↔ proj.avg_discount < b))
      ∧ (b = proj.avg_discount → (mkQuoteProjectionView proj).showsBest = false) := by
  intro sid vq proj b hproj hbest
  refine ⟨by simp [mkVendorQuoteCard, hproj], by simp [mkNearbyQuoteCard, hproj], ?_, ?_⟩
  · intro havg
    show bestCaseShown proj = true ↔ _
    simp only [bestCaseShown, hbest, Bool.and_eq_true, decide_eq_true_eq]
    constructor
    · exact fun h => h.2
    · exact fun h => ⟨(lt_of_le_of_lt havg h).ne', h⟩
  · intro heq
    show bestCaseShown proj = false
    simp [bestCaseShown, hbest, heq]

/-- Witness for C8: the best-case block of the concrete example projection
(average 10 %, best 12 %) is shown. -/
theorem claim8_witness :
    (mkQuoteProjectionView exProjection).showsBest = true ↔ (10 : ℚ) < 12 :=
  (claim8_best_case_block "SVC" exQuoteWithProjection exProjection 12 rfl rfl).2.2.1
    (by norm_num [exProjection])

/-! ## Request controllers -/

/-- Outcome of one `fetch` round trip as distinguished by analyze.js
`analyzeService` (lines 42-68): an OK response with parsed body; a non-OK
response whose parsed body optionally carries an `error` string (absent or
empty is falsy); or a rejected promise (network failure) whose runtime
message reaches the catch block. -/
inductive FetchOutcome (α : Type)
  | ok (data : α)
  | httpError (body_error : Option String)
  | exn (msg : String)
deriving Repr, DecidableEq

/-- Outcome of one `fetch(...).then(r => r.json())` round trip as
distinguished by the renewal and vendor controllers: a parsed body with an
optional `error` field, or a rejected promise. -/
inductive JsonOutcome (α : Type)
  | body (error : Option String) (data : α)
  | exn (msg : String)
deriving Repr, DecidableEq

/-- The `/api/analyze` success payload restricted to the modelled fields;
`vpl_options` is pass-through data (rendered elsewhere and echoed into
strategy requests), modelled opaquely as strings. -/
structure Payload where
  vpl_options : List String
  vendor_quotes : List VendorQuote
  nearby_quotes : List VendorQuote
deriving Repr, DecidableEq

/-- Visibility flags and error text of the service-analysis tab. -/
structure AnalyzeUI where
  loadingVisible : Bool
  errorVisible : Bool
  errorMessage : String
  welcomeVisible : Bool
  resultsVisible : Bool
  quickStatsVisible : Bool
deriving Repr, DecidableEq

/-- Full state of the service-analysis tab: UI flags, the two module-scoped
variables of analyze.js (lines 6-7), and the rendered quote cards (which
persist until the next successful render replaces them). -/
structure AnalyzeTabState where
  ui : AnalyzeUI
  currentServiceData : Option Payload
  currentServiceId : Option String
  vendorCards : List VendorQuoteCard
  nearbyCards : List NearbyQuoteCard
deriving Repr, DecidableEq

/-- The service-analysis tab at page load. -/
def initialAnalyzeState : AnalyzeTabState :=
  { ui := { loadingVisible := false, errorVisible := false, errorMessage := "",
            welcomeVisible := true, resultsVisible := false, quickStatsVisible := false }
    currentServiceData := none
    currentServiceId := none
    vendorCards := []
    nearbyCards := [] }

/-- analyze.js `displayResults` (lines 74-107) restricted to the modelled
fields: renders both quote collections — baking the module-scoped
`currentServiceId` (equal to `sid` at this point of every call) into each
card's strategy button — and shows the results containers. -/
def displayResults (s : AnalyzeTabState) (sid : String) (data : Payload) : AnalyzeTabState :=
  { s with
    vendorCards := displayVendorQuotesCards sid data.vendor_quotes
    nearbyCards := displayNearbyQuotesCards sid data.nearby_quotes
    ui := { s.ui with resultsVisible := true, quickStatsVisible := true } }

/-- analyze.js `analyzeService` (lines 32-69): reset the view, overwrite
`currentServiceId` before the call; on success store the payload and render;
on a non-OK response throw `error.error || 'Failed to analyze service'` into
the catch; on a network failure the runtime message reaches the catch; the
catch shows the error banner and re-shows the welcome block; the `finally`
clears the loading indicator in every case. -/
def analyzeService (s : AnalyzeTabState) (serviceId : String) (outcome : FetchOutcome Payload) :
    AnalyzeTabState :=
  let s := { s with
    ui := { s.ui with
      errorVisible := false
      welcomeVisible := false
      resultsVisible := false
      loadingVisible := true
      quickStatsVisible := false }
    currentServiceId := some serviceId }
  match outcome with
  | .ok data =>
      let s := { s with currentServiceData := some data }
      let s := displayResults s serviceId data
      { s with ui := { s.ui with loadingVisible := false } }
  | .httpError bodyError =>
      let msg := jsOrString bodyError "Failed to analyze service"
      let s := { s with
        ui := { s.ui with
          errorVisible := true
          errorMessage := msg
          welcomeVisible := true } }
      { s with ui := { s.ui with loadingVisible := false } }
  | .exn msg =>
      let s := { s with
        ui := { s.ui with
          errorVisible := true
          errorMessage := msg
          welcomeVisible := true } }
      { s with ui := { s.ui with loadingVisible := false } }

/-- The `#analyzeForm` submit handler (analyze.js lines 14-20): trim the
input; when non-empty run `analyzeService`, otherwise do nothing. The first
component is the `service_id` of the network request issued, `none` when no
call is made. -/
def analyzeFormSubmit (raw : String) (s : AnalyzeTabState) (outcome : FetchOutcome Payload) :
    Option String × AnalyzeTabState :=
  let serviceId := jsTrim raw
  if serviceId = "" then (none, s)
  else (some serviceId, analyzeService s serviceId outcome)

/-- A `/api/strategy/{serviceId}/{vqQbId}` request: path parameters plus the
`vpl_options` body. -/
structure StrategyRequest where
  url_service_id : String
  url_vq_id : Nat
  body_vpl_options : List String
deriving Repr, DecidableEq

/-- analyze.js `showStrategy` (lines 457-476): the request it issues — path
ids from its arguments, body `vpl_options` from the module-scoped
`currentServiceData` (empty when none is loaded). -/
def showStrategyRequest (s : AnalyzeTabState) (serviceId : String) (vqQbId : Nat) :
    StrategyRequest :=
  { url_service_id := serviceId
    url_vq_id := vqQbId
    body_vpl_options :=
      match s.currentServiceData with
      | some d => d.vpl_options
      | none => [] }

/-- Clicking a rendered View-Strategy button invokes `showStrategy` with the
arguments baked into that button's `onclick` at render time. -/
def clickStrategyButton (s : AnalyzeTabState) (btn : String × Nat) : StrategyRequest :=
  showStrategyRequest s btn.1 btn.2

/-- Visibility flags and error text of the renewal-analysis tab. -/
structure RenewalUI where
  loadingVisible : Bool
  errorVisible : Bool
  errorMessage : String
  quickSummaryVisible : Bool
  vocLineVisible : Bool
  resultsVisible : Bool
deriving Repr, DecidableEq

/-- The `/api/analyze-renewal` success payload restricted to the modelled
fields. -/
structure RenewalPayload where
  nearby_quotes : List VendorQuote
deriving Repr, DecidableEq

/-- State of the renewal-analysis tab. -/
structure RenewalTabState where
  ui : RenewalUI
  nearbyCards : List RenewalNearbyCard
deriving Repr, DecidableEq

/-- `showRenewalError` (renewal script lines 49-52). -/
def showRenewalError (ui : RenewalUI) (message : String) : RenewalUI :=
  { ui with errorMessage := message, errorVisible := true }

/-- `displayRenewalResults` (renewal script lines 54-92) restricted to the
modelled fields. -/
def displayRenewalResults (s : RenewalTabState) (data : RenewalPayload) : RenewalTabState :=
  { ui := { s.ui with
      quickSummaryVisible := true
      vocLineVisible := true
      resultsVisible := true }
    nearbyCards := displayRenewalNearbyCards data.nearby_quotes }

/-- `analyzeRenewal` (renewal script lines 17-47): show loading and hide all
result containers; on a parsed body, hide loading, then show the error
banner when the body carries a truthy `error`, else render; on a rejected
promise hide loading and show `'Network error: ' + error.message`. -/
def analyzeRenewal (s : RenewalTabState) (outcome : JsonOutcome RenewalPayload) :
    RenewalTabState :=
  let ui := { s.ui with
    loadingVisible := true
    errorVisible := false
    quickSummaryVisible := false
    vocLineVisible := false
    resultsVisible := false }
  match outcome with
  | .body err data =>
      let ui := { ui with loadingVisible := false }
      if jsTruthyStr err then { s with ui := showRenewalError ui (strVal err) }
      else displayRenewalResults { s with ui := ui } data
  | .exn msg =>
      let ui := { ui with loadingVisible := false }
      { s with ui := showRenewalError ui ("Network error: " ++ msg) }

/-- The `#analyzeRenewalForm` submit handler (renewal script lines 6-14). -/
def analyzeRenewalFormSubmit (raw : String) (s : RenewalTabState)
    (outcome : JsonOutcome RenewalPayload) : Option String × RenewalTabState :=
  let serviceId := jsTrim raw
  if serviceId = "" then (none, s)
  else (some serviceId, analyzeRenewal s outcome)

/-- Visibility flags and error text of the vendor-history tab. -/
structure VendorUI where
  loadingVisible : Bool
  errorVisible : Bool
  errorMessage : String
  welcomeVisible : Bool
  resultsVisible : Bool
  quickSummaryVisible : Bool
  autocompleteVisible : Bool
deriving Repr, DecidableEq

/-- The `/api/analyze-vendor` success payload restricted to the modelled
fields. -/
structure VendorPayload where
  vendor_name : String
  renewal_history : List RenewalRecord
deriving Repr, DecidableEq

/-- State of the vendor-history tab. -/
structure VendorTabState where
  ui : VendorUI
  renewalRows : List RenewalHistoryRow
deriving Repr, DecidableEq

/-- `showVendorError` (main.js vendor tab, lines 273-276). -/
def showVendorError (ui : VendorUI) (message : String) : VendorUI :=
  { ui with errorMessage := message, errorVisible := true }

/-- `displayVendorResults` (main.js vendor tab, lines 281-307) restricted to
the modelled fields. -/
def displayVendorResults (s : VendorTabState) (data : VendorPayload) : VendorTabState :=
  { ui := { s.ui with quickSummaryVisible := true, resultsVisible := true }
    renewalRows := displayRenewalHistoryRows data.renewal_history }

/-- `analyzeVendor` (main.js vendor tab, lines 239-268). -/
def analyzeVendor (s : VendorTabState) (outcome : JsonOutcome VendorPayload) :
    VendorTabState :=
  let ui := { s.ui with
    loadingVisible := true
    errorVisible := false
    welcomeVisible := false
    resultsVisible := false }
  match outcome with
  | .body err data =>
      let ui := { ui with loadingVisible := false }
      if jsTruthyStr err then { s with ui := showVendorError ui (strVal err) }
      else displayVendorResults { s with ui := ui } data
  | .exn msg =>
      let ui := { ui with loadingVisible := false }
      { s with ui := showVendorError ui ("Failed to analyze vendor: " ++ msg) }

/-- The `#analyzeVendorForm` submit handler (main.js vendor tab, lines
179-187): trim; when non-empty hide the autocomplete panel and run
`analyzeVendor`, otherwise do nothing. -/
def analyzeVendorFormSubmit (raw : String) (s : VendorTabState)
    (outcome : JsonOutcome VendorPayload) : Option String × VendorTabState :=
  let vendorName := jsTrim raw
  if vendorName = "" then (none, s)
  else (some vendorName,
    analyzeVendor { s with ui := { s.ui with autocompleteVisible := false } } outcome)

theorem jsOrString_ne_empty (s : Option String) (d : String) (hd : d ≠ "") :
    jsOrString s d ≠ "" := by
  match s with
  | none => exact hd
  | some v =>
    show (if v = "" then d else v) ≠ ""
    by_cases hv : v = ""
    · rw [if_pos hv]; exact hd
    · rw [if_neg hv]; exact hv

theorem append_ne_empty_left (a b : String) (h : a.data ≠ []) : a ++ b ≠ "" := by
  intro hc
  have hdata : (a ++ b).data = [] := by rw [hc]
  rw [String.data_append] at hdata
  exact h (List.append_eq_nil.mp hdata).1

theorem strVal_ne_empty (err : Option String) (h : jsTruthyStr err = true) :
    strVal err ≠ "" := by
  match err with
  | none => exact absurd h (by simp [jsTruthyStr])
  | some v => simpa [jsTruthyStr] using h

/-- C3: for every analysis submission of each of the three controllers, the
loading indicator is hidden however the network call settles; and on every
failed call (non-OK response, body-level error, or rejected promise — with
the runtime message nonempty in the service controller's rejected case) the
end state has the error banner visible with a nonempty message and the
results container still hidden. -/
theorem claim3_loading_cleared_error_shown :
    (∀ (s : AnalyzeTabState) (sid : String) (out : FetchOutcome Payload),
      (analyzeService s sid out).ui.loadingVisible = false)
    ∧ (∀ (s : AnalyzeTabState) (sid : String) (e : Option String),
        (analyzeService s sid (.httpError e)).ui.errorVisible = true
        ∧ (analyzeService s sid (.httpError e)).ui.errorMessage ≠ ""
        ∧ (analyzeService s sid (.httpError e)).ui.resultsVisible = false)
    ∧ (∀ (s : AnalyzeTabState) (sid : String) (m : String), m ≠ "" →
        (analyzeService s sid (.exn m)).ui.errorVisible = true
        ∧ (analyzeService s sid (.exn m)).ui.errorMessage ≠ ""
        ∧ (analyzeService s sid (.exn m)).ui.resultsVisible = false)
    ∧ (∀ (s : RenewalTabState) (out : JsonOutcome RenewalPayload),
        (analyzeRenewal s out).ui.loadingVisible = false)
    ∧ (∀ (s : RenewalTabState) (err : Option String) (d : RenewalPayload),
        jsTruthyStr err = true →
        (analyzeRenewal s (.body err d)).ui.errorVisible = true
        ∧ (analyzeRenewal s (.body err d)).ui.errorMessage ≠ ""
        ∧ (analyzeRenewal s (.body err d)).ui.resultsVisible = false)
    ∧ (∀ (s : RenewalTabState) (m : String),
        (analyzeRenewal s (.exn m)).ui.errorVisible = true
        ∧ (analyzeRenewal s (.exn m)).ui.errorMessage ≠ ""
        ∧ (analyzeRenewal s (.exn m)).ui.resultsVisible = false)
    ∧ (∀ (s : VendorTabState) (out : JsonOutcome VendorPayload),
        (analyzeVendor s out).ui.loadingVisible = false)
    ∧ (∀ (s : VendorTabState) (err : Option String) (d : VendorPayload),
        jsTruthyStr err = true →
        (analyzeVendor s (.body err d)).ui.errorVisible = true
        ∧ (analyzeVendor s (.body err d)).ui.errorMessage ≠ ""
        ∧ (analyzeVendor s (.body err d)).ui.resultsVisible = false)
    ∧ (∀ (s : VendorTabState) (m : String),
        (analyzeVendor s (.exn m)).ui.errorVisible = true
        ∧ (analyzeVendor s (.exn m)).ui.errorMessage ≠ ""
        ∧ (analyzeVendor s (.exn m)).ui.resultsVisible = false) := by
  refine ⟨fun s sid out => ?_, fun s sid e => ?_, fun s sid m hm => ?_,
    fun s out => ?_, fun s err d herr => ?_, fun s m => ?_,
    fun s out => ?_, fun s err d herr => ?_, fun s m => ?_⟩
  · cases out <;> simp [analyzeService, displayResults]
  · exact ⟨rfl, jsOrString_ne_empty _ _ (by decide), rfl⟩
  · exact ⟨rfl, hm, rfl⟩
  · cases out with
    | body err d =>
      by_cases h : jsTruthyStr err = true
      · simp [analyzeRenewal, h, showRenewalError]
      · simp [analyzeRenewal, h, displayRenewalResults]
    | exn m => simp [analyzeRenewal, showRenewalError]
  · simp only [analyzeRenewal, herr, if_pos]
    exact ⟨rfl, strVal_ne_empty err herr, rfl⟩
  · refine ⟨rfl, ?_, rfl⟩
    exact append_ne_empty_left _ _ (by decide)
  · cases out with
    | body err d =>
      by_cases h : jsTruthyStr err = true
      · simp [analyzeVendor, h, showVendorError]
      · simp [analyzeVendor, h, displayVendorResults]
    | exn m => simp [analyzeVendor, showVendorError]
  · simp only [analyzeVendor, herr, if_pos]
    exact ⟨rfl, strVal_ne_empty err herr, rfl⟩
  · refine ⟨rfl, ?_, rfl⟩
    exact append_ne_empty_left _ _ (by decide)

/-- Witness for C3: a failed service analysis with a concrete runtime
message ends with the error banner visible. -/
theorem claim3_witness :
    (analyzeService initialAnalyzeState "SVC-1" (.exn "Failed to fetch")).ui.errorVisible = true
    ∧ (analyzeService initialAnalyzeState "SVC-1" (.exn "Failed to fetch")).ui.errorMessage ≠ ""
    ∧ (analyzeService initialAnalyzeState "SVC-1"
        (.exn "Failed to fetch")).ui.resultsVisible = false :=
  claim3_loading_cleared_error_shown.2.2.1 initialAnalyzeState "SVC-1" "Failed to fetch"
    (by decide)

/-- C4: for every identifier that trims to the empty string, each of the
three submit handlers issues no network request and leaves its tab state
unchanged. -/
theorem claim4_empty_input_noop :
    ∀ raw : String, jsTrim raw = "" →
      (∀ (s : AnalyzeTabState) (out : FetchOutcome Payload),
        analyzeFormSubmit raw s out = (none, s))
      ∧ (∀ (s : RenewalTabState) (out : JsonOutcome RenewalPayload),
        analyzeRenewalFormSubmit raw s out = (none, s))
      ∧ (∀ (s : VendorTabState) (out : JsonOutcome VendorPayload),
        analyzeVendorFormSubmit raw s out = (none, s)) := by
  intro raw h
  refine ⟨fun s out => ?_, fun s out => ?_, fun s out => ?_⟩ <;>
    simp [analyzeFormSubmit, analyzeRenewalFormSubmit, analyzeVendorFormSubmit, h]

/-- Witness for C4: a whitespace-only identifier is a no-op for the service
controller. -/
theorem claim4_witness :
    analyzeFormSubmit "   " initialAnalyzeState (.exn "x") = (none, initialAnalyzeState) :=
  (claim4_empty_input_noop "   " (by decide)).1 initialAnalyzeState (.exn "x")

/-! ## C10: module-scoped state across submissions -/

/-- Example vendor quote with QuickBase id 7. -/
def exQuoteQ7 : VendorQuote :=
  { vendor_name := "VendorD", quickbase_id := 7, gm := some 42, distance_meters := 0,
    is_same_vendor := false, projected_with_negotiation := none }

/-- Example `/api/analyze` payload. -/
def exPayload1 : Payload :=
  { vpl_options := ["vplA"], vendor_quotes := [exQuoteQ7], nearby_quotes := [] }

/-- C10 counterexample: after a successful analysis of "SVC-1" followed by a
failed analysis of "SVC-2", `currentServiceId` holds the new identifier and
`currentServiceData` the old payload — but the only rendered strategy button
was baked with "SVC-1" at render time, and clicking it issues a request
pairing the OLD identifier "SVC-1" (not the new "SVC-2") with the old
payload's VPL options; so a strategy request does not pair the new service
identifier with the previous payload's options. -/
theorem claim10_counterexample :
    let s2 := analyzeService (analyzeService initialAnalyzeState "SVC-1" (.ok exPayload1))
      "SVC-2" (.httpError none)
    s2.currentServiceId = some "SVC-2"
    ∧ s2.currentServiceData = some exPayload1
    ∧ s2.vendorCards.map (fun c => c.strategyButton) = [("SVC-1", 7)]
    ∧ clickStrategyButton s2 ("SVC-1", 7)
        = { url_service_id := "SVC-1", url_vq_id := 7, body_vpl_options := ["vplA"] }
    ∧ ("SVC-1" : String) ≠ "SVC-2" := by
  exact ⟨rfl, rfl, rfl, rfl, by decide⟩

/-- C10 (amended): `currentServiceId` is overwritten on every submission
(also failing ones) while `currentServiceData` and the rendered cards are
overwritten only on success; consequently, after a failed submission that
followed an earlier successful one the two variables disagree, and every
strategy request issued from a rendered button pairs the PREVIOUS (baked at
the last successful render) service identifier with the VPL options of the
previously loaded payload — the new identifier is not used. -/
theorem claim10_state_amended :
    (∀ (s : AnalyzeTabState) (sid : String) (out : FetchOutcome Payload),
      (analyzeService s sid out).currentServiceId = some sid)
    ∧ (∀ (s : AnalyzeTabState) (sid : String) (e : Option String),
        (analyzeService s sid (.httpError e)).currentServiceData = s.currentServiceData
        ∧ (analyzeService s sid (.httpError e)).vendorCards = s.vendorCards)
    ∧ (∀ (s : AnalyzeTabState) (sid m : String),
        (analyzeService s sid (.exn m)).currentServiceData = s.currentServiceData
        ∧ (analyzeService s sid (.exn m)).vendorCards = s.vendorCards)
    ∧ (∀ (s : AnalyzeTabState) (sid : String) (data : Payload),
        (analyzeService s sid (.ok data)).currentServiceData = some data
        ∧ (analyzeService s sid (.ok data)).vendorCards
            = displayVendorQuotesCards sid data.vendor_quotes)
    ∧ (∀ (s1 : AnalyzeTabState) (id1 id2 : String) (d1 : Payload) (e : Option String)
        (btn : String × Nat),
        btn ∈ (analyzeService (analyzeService s1 id1 (.ok d1)) id2
            (.httpError e)).vendorCards.map (fun c => c.strategyButton) →
        clickStrategyButton
            (analyzeService (analyzeService s1 id1 (.ok d1)) id2 (.httpError e)) btn
          = { url_service_id := id1, url_vq_id := btn.2,
              body_vpl_options := d1.vpl_options }) := by
  refine ⟨fun s sid out => ?_, fun s sid e => ⟨rfl, rfl⟩, fun s sid m => ⟨rfl, rfl⟩,
    fun s sid data => ⟨rfl, rfl⟩, fun s1 id1 id2 d1 e btn hmem => ?_⟩
  · cases out <;> rfl
  · have hbtn : btn.1 = id1 := by
      simp only [analyzeService, displayResults, displayVendorQuotesCards, List.map_map,
        List.mem_map] at hmem
      obtain ⟨vq, _, hvq⟩ := hmem
      rw [← hvq]
      rfl
    show showStrategyRequest _ btn.1 btn.2 = _
    rw [hbtn]
    rfl

/-- Witness for C10: the strategy request from the concrete rendered button
after the success-then-failure trace. -/
theorem claim10_witness :
    clickStrategyButton
        (analyzeService (analyzeService initialAnalyzeState "SVC-1" (.ok exPayload1))
          "SVC-2" (.httpError none)) ("SVC-1", 7)
      = { url_service_id := "SVC-1", url_vq_id := 7, body_vpl_options := ["vplA"] } := by
  have h := claim10_state_amended.2.2.2.2 initialAnalyzeState "SVC-1" "SVC-2" exPayload1 none
    ("SVC-1", 7) (by decide)
  exact h

/-! ## C9: autocomplete debounce (main.js vendor tab, lines 152-169) -/

/-- State of the autocomplete controller: the single pending debounce timer
(`autocompleteTimeout`, as fire time and scheduled search term), the
suggestion panel visibility, and the network calls issued so far (each
recorded as the `q` parameter of its `/api/vendor-autocomplete` request). -/
structure AutocompleteState where
  pending : Option (Nat × String)
  panelVisible : Bool
  calls : List String
deriving Repr, DecidableEq

/-- The vendor-name `input` handler in a discrete-time model: a pending
lookup scheduled to fire at `tf` fires (issuing its call) if this event
occurs at `t ≥ tf`; the handler then clears any still-pending timer
(`clearTimeout`), hides the panel and stops when the trimmed value is
shorter than 2 characters, and otherwise schedules a lookup of the trimmed
term for 300 ms after this keystroke. -/
def handleVendorInput (st : AutocompleteState) (t : Nat) (raw : String) : AutocompleteState :=
  let st :=
    match st.pending with
    | some (tf, term) =>
        if tf ≤ t then { st with pending := none, calls := st.calls ++ [term] } else st
    | none => st
  let searchTerm := jsTrim raw
  let st := { st with pending := none }
  if searchTerm.length < 2 then { st with panelVisible := false }
  else { st with pending := some (t + 300, searchTerm) }

/-- A pending lookup that no later event cancels eventually fires. -/
def flushPending (st : AutocompleteState) : AutocompleteState :=
  match st.pending with
  | some (_, term) => { st with pending := none, calls := st.calls ++ [term] }
  | none => st

/-- Run a chronological sequence of input events from the initial state
(no pending timer, panel hidden) and let any remaining timer fire. -/
def runVendorInputs (events : List (Nat × String)) : AutocompleteState :=
  flushPending (events.foldl (fun st e => handleVendorInput st e.1 e.2)
    { pending := none, panelVisible := false, calls := [] })

/-- C9: an input event whose trimmed value is shorter than 2 characters
cancels any pending lookup (issuing no call when that lookup had not yet
fired) and hides the panel; and a burst of three keystrokes, each within
300 ms of the previous and each trimming to at least 2 characters, issues
exactly one network call, carrying the final trimmed input value. -/
theorem claim9_debounce :
    (∀ (st : AutocompleteState) (t : Nat) (raw : String),
      (jsTrim raw).length < 2 →
        (handleVendorInput st t raw).pending = none
        ∧ (handleVendorInput st t raw).panelVisible = false
        ∧ (∀ tf term, st.pending = some (tf, term) → t < tf →
            (handleVendorInput st t raw).calls = st.calls))
    ∧ (∀ (t1 t2 t3 : Nat) (v1 v2 v3 : String),
        t1 ≤ t2 → t2 ≤ t3 → t2 < t1 + 300 → t3 < t2 + 300 →
        2 ≤ (jsTrim v1).length → 2 ≤ (jsTrim v2).length → 2 ≤ (jsTrim v3).length →
        (runVendorInputs [(t1, v1), (t2, v2), (t3, v3)]).calls = [jsTrim v3]) := by
  constructor
  · intro st t raw hlen
    refine ⟨?_, ?_, ?_⟩
    · simp [handleVendorInput, hlen]
    · simp [handleVendorInput, hlen]
    · intro tf term hp ht
      simp [handleVendorInput, hlen, hp, Nat.not_le.mpr ht]
  · intro t1 t2 t3 v1 v2 v3 h12 h23 hb2 hb3 hl1 hl2 hl3
    have hn1 : ¬ (jsTrim v1).length < 2 := Nat.not_lt.mpr hl1
    have hn2 : ¬ (jsTrim v2).length < 2 := Nat.not_lt.mpr hl2
    have hn3 : ¬ (jsTrim v3).length < 2 := Nat.not_lt.mpr hl3
    have hf2 : ¬ t1 + 300 ≤ t2 := Nat.not_le.mpr hb2
    have hf3 : ¬ t2 + 300 ≤ t3 := Nat.not_le.mpr hb3
    simp [runVendorInputs, handleVendorInput, flushPending, hn1, hn2, hn3, hf2, hf3]

/-- Witness for C9: three concrete keystrokes 100 ms apart produce exactly
the one call for the final value. -/
theorem claim9_witness :
    (runVendorInputs [(0, "ab"), (100, "abc"), (200, "abcd")]).calls = [jsTrim "abcd"] :=
  claim9_debounce.2 0 100 200 "ab" "abc" "abcd" (by norm_num) (by norm_num) (by norm_num)
    (by norm_num) (by decide) (by decide) (by decide)

end MarginOptimizer
